import Mathlib

/-!
Shallow embedding of the PyKOB Relay Router (src/MKOB/kobmain.py) and the
Session Recorder/Player (src/pykob/recorder.py), for checking the
natural-language specification against the code.

Conventions of the embedding:
* A code sequence is a `List Int` of signed millisecond durations.
* The module-level mutable state of `kobmain.py` is a `KState` record; each
  Python function becomes a Lean function `KState → ... → KState × List Effect`
  where the effect list records, in order, the calls made to collaborators
  (`myInternet.write`, `myKOB.sounder`, `myRecorder.record`, `myReader.decode`,
  `myReader.flush`, UI appends, station-list notifications, `time.sleep`).
* Configuration values read from `kobconfig` (`kc.Remote`, `kc.Local`,
  `kc.config.station`) are a `KConfig` record.
* Durations that Python handles as floats of seconds are exact rationals `ℚ`.
  All comparisons made by the code compare quantities that differ by at least
  1/10000 when they differ at all, so exact rational arithmetic agrees with
  the double-precision float arithmetic of the source at every branch.
-/

/-- Embedding of `kob.CodeSource`: origin tag stored with a recorded packet
(`kobmain.py` records key/keyboard input as `local` and wire input
as `wire`). -/
inductive CodeSource where
  | local_
  | wire
  deriving DecidableEq, Repr

/-- Calls made by `kobmain.py` to its collaborators, in program order. -/
inductive Effect where
  | internetWrite (code : List Int)
  | sounder (code : List Int)
  | record (code : List Int) (src : CodeSource)
  | decode (code : List Int)
  | flush
  | readerAppend (s : String)
  | newSender (s : String)
  | readerReset
  | stationListClear
  | internetConnect
  | internetDisconnect
  | sleep (seconds : ℚ)
  deriving DecidableEq, Repr

/-- Configuration read by `kobmain.py` from `kobconfig` (`kc`). -/
structure KConfig where
  Remote : Bool
  Local : Bool
  station : String
  deriving DecidableEq, Repr

/-- The module-level mutable state of `kobmain.py`:
`circuit_closer`, `internet_active`, `connected`, `sender_ID`, the Tk
checkbox variable `ka.kw.varCircuitCloser`, and the recorder context the
module mutates (`myRecorder.station_id`; `myRecorder` truthiness as
`hasRecorder`). -/
structure KState where
  circuit_closer : Bool
  internet_active : Bool
  connected : Bool
  sender_ID : String
  varCircuitCloser : Int
  hasRecorder : Bool
  rec_station_id : String
  deriving DecidableEq, Repr

/-- Definition `latch_code = (-1000, +1)`: code sequence to force latching
(kobmain.py line 49). -/
def latch_code : List Int := [-1000, 1]

/-- Modelled from the spec: `ka.doCircuitCloser` is defined in
`kobactions.py` of the MKOB application, whose version matching this
`kobmain.py` is not under src/.  Per spec §4.1 step 1 the call signals the
Circuit/Sender State Machine to mark the circuit open or closed according to
the Circuit Closer checkbox, and the newer `src/kobactions.py` implements it
as `km.circuit_closer_closed(kw.varCircuitCloser.get() == 1)`: the circuit
state is set from the checkbox variable. -/
def doCircuitCloser (st : KState) : KState :=
  { st with circuit_closer := st.varCircuitCloser == 1 }

/-- Embedding of `update_sender(id)` (kobmain.py lines 154-166): when `id` differs from
`sender_ID`, record the new sender, flush the reader, append the station
banner, notify the station list, reset the Reader to nominal speed, and
update the recorder's station id; otherwise do nothing. -/
def update_sender (st : KState) (id : String) : KState × List Effect :=
  if id ≠ st.sender_ID then
    ({ st with
        sender_ID := id,
        rec_station_id := if st.hasRecorder then id else st.rec_station_id },
     [Effect.flush, Effect.readerAppend ("\n\n<" ++ id ++ ">"),
      Effect.newSender id, Effect.readerReset])
  else (st, [])

/-- Embedding of `from_key(code)` (kobmain.py lines 53-74): handle input from the
external key.  Note that `from_key` itself never calls `myKOB.sounder`
(the hardware key is heard directly). -/
def from_key (cfg : KConfig) (st0 : KState) (code : List Int) :
    KState × List Effect :=
  let st1 :=
    if 0 < code.length ∧ code.getLast? ≠ some 1 then
      doCircuitCloser { st0 with varCircuitCloser := 0 }
    else st0
  let p2 :=
    if st1.circuit_closer = false then
      let ew := if st1.connected ∧ cfg.Remote then [Effect.internetWrite code] else []
      if st1.internet_active = false then
        let p := update_sender st1 cfg.station
        let er := if p.1.hasRecorder then [Effect.record code CodeSource.local_] else []
        (p.1, ew ++ p.2 ++ er ++ [Effect.decode code])
      else (st1, ew)
    else (st1, ([] : List Effect))
  let p3 :=
    if 0 < code.length ∧ code.getLast? = some 1 then
      (doCircuitCloser { p2.1 with varCircuitCloser := 1 }, [Effect.flush])
    else
      (doCircuitCloser { p2.1 with varCircuitCloser := 0 }, ([] : List Effect))
  (p3.1, p2.2 ++ p3.2)

/-- Embedding of `from_keyboard(code)` (kobmain.py lines 76-96): handle input from the
keyboard sender.  Differs from `from_key` by sounding locally
(`if kc.Local: myKOB.sounder(code)`) and by having no `else` on the
trailing latch check. -/
def from_keyboard (cfg : KConfig) (st0 : KState) (code : List Int) :
    KState × List Effect :=
  let st1 :=
    if 0 < code.length ∧ code.getLast? ≠ some 1 then
      doCircuitCloser { st0 with varCircuitCloser := 0 }
    else st0
  let p2 :=
    if st1.circuit_closer = false then
      let ew := if st1.connected ∧ cfg.Remote then [Effect.internetWrite code] else []
      if st1.internet_active = false then
        let es := if cfg.Local then [Effect.sounder code] else []
        let p := update_sender st1 cfg.station
        let er := if p.1.hasRecorder then [Effect.record code CodeSource.local_] else []
        (p.1, ew ++ es ++ p.2 ++ er ++ [Effect.decode code])
      else (st1, ew)
    else (st1, ([] : List Effect))
  let p3 :=
    if 0 < code.length ∧ code.getLast? = some 1 then
      (doCircuitCloser { p2.1 with varCircuitCloser := 1 }, [Effect.flush])
    else (p2.1, ([] : List Effect))
  (p3.1, p2.2 ++ p3.2)

/-- Embedding of `from_internet(code)` (kobmain.py lines 98-113): handle input from the
wire.  If connected and the circuit closer is closed, forward to sounder,
reader and recorder; then set `internet_active = True` (in both the
latch and non-latch branches as written); if not connected, set
`internet_active = False`. -/
def from_internet (st : KState) (code : List Int) : KState × List Effect :=
  if st.connected then
    let e1 :=
      if st.circuit_closer then
        [Effect.sounder code, Effect.decode code] ++
          (if st.hasRecorder then [Effect.record code CodeSource.wire] else [])
      else []
    if 0 < code.length ∧ code.getLast? = some 1 then
      ({ st with internet_active := true }, e1 ++ [Effect.flush])
    else
      ({ st with internet_active := true }, e1)
  else
    ({ st with internet_active := false }, [])

/-- Embedding of `toggle_connect()` (kobmain.py lines 115-133): connect or disconnect.
On disconnect: disconnect the internet, flush, sleep 0.5 s, force
`connected = False` and `internet_active = False`, emit the latch code to
sounder and reader if the circuit closer is closed, and clear the station
list. -/
def toggle_connect (st0 : KState) : KState × List Effect :=
  let st := { st0 with connected := !st0.connected }
  if st.connected then
    (st, [Effect.stationListClear, Effect.internetConnect])
  else
    let st := { st with connected := false, internet_active := false }
    let e2 :=
      if st.circuit_closer then
        [Effect.sounder latch_code, Effect.decode latch_code, Effect.flush]
      else []
    (st, [Effect.internetDisconnect, Effect.flush, Effect.sleep (1/2)] ++
          e2 ++ [Effect.stationListClear])

/-- Does the effect trace contain a `myKOB.sounder` call? -/
def callsSounder (es : List Effect) : Bool :=
  es.any fun e => match e with
    | Effect.sounder _ => true
    | _ => false

/-- Does the effect trace contain a `myRecorder.record` call? -/
def callsRecord (es : List Effect) : Bool :=
  es.any fun e => match e with
    | Effect.record _ _ => true
    | _ => false

/-- Does the effect trace contain a `myInternet.write` call? -/
def callsInternetWrite (es : List Effect) : Bool :=
  es.any fun e => match e with
    | Effect.internetWrite _ => true
    | _ => false

/-- Number of station-list new-sender announcements in the trace
(the observer notified by `update_sender`). -/
def countNewSender (es : List Effect) : Nat :=
  (es.filter fun e => match e with
    | Effect.newSender _ => true
    | _ => false).length

/-!
Session Recorder/Player (src/pykob/recorder.py).

The log file is modelled as a `List LogLine` of already-parsed JSON lines;
`json.dump`/`json.loads` are assumed mutually inverse on the fixed
five-field objects the recorder writes, so `record` produces the `LogLine`
it appends and `playback` consumes `LogLine`s.
-/

/-- One line of a session log: the JSON object
`{"ts": ..., "w": ..., "s": ..., "o": ..., "c": [...]}` written by
`Recorder.record`. -/
structure LogLine where
  ts : Int
  w : Int
  s : String
  o : CodeSource
  c : List Int
  deriving DecidableEq, Repr

/-- The `Recorder` object state (recorder.py lines 77-84): the fields set
by `__init__`.  The two callback slots are tracked by presence only (the
playback loop never reads them: it takes its callbacks as parameters). -/
structure Recorder where
  target_file_path : Option String
  source_file_path : Option String
  station_id : String
  wire : Int
  has_station_id_callback : Bool
  has_wire_callback : Bool
  deriving DecidableEq, Repr

/-- Embedding of `Recorder.record(code, source)` (recorder.py lines 165-179): build the
JSON object from the recorder-held `__wire` and `__station_id`, the given
source and code, and the current timestamp, and append it as one line. -/
def Recorder.record (rec : Recorder) (timestamp : Int) (code : List Int)
    (source : CodeSource) : LogLine :=
  { ts := timestamp, w := rec.wire, s := rec.station_id, o := source, c := code }

/-- Observable calls made by `Recorder.playback`. -/
inductive PbEffect where
  | wireCb (w : Int)
  | stationCb (s : String)
  | sleep (seconds : ℚ)
  deriving DecidableEq, Repr

/-- Exception escaping `Recorder.playback`: `self.code_callback(code)`
(recorder.py line 234) looks up an attribute `code_callback` that the
`Recorder` class never defines, so when a `code_callback` argument is
supplied the lookup raises `AttributeError`.  The payload records the value
the local variable `code` has at that point (the sequence that was about to
be delivered). -/
inductive PbError where
  | attributeError (code : List Int)
  deriving DecidableEq, Repr

/-- Python's `round(x, 4)`.  The argument is always an integer number of
milliseconds divided by 1000, so `x * 10000` is an integer and the rounding
(including Python's round-half-to-even, which differs from Mathlib's
`round` only at ties) is exact. -/
def round4 (q : ℚ) : ℚ := (round (q * 10000) : ℚ) / 10000

/-- Lines 228-232 of recorder.py: when `speed_factor != 100` the loop
`for c in code: if c < 0 or c > 2: c = round(sf * c)` computes a rescaled
value but only rebinds the loop variable `c`; the list `code` is never
written back, so the sequence is returned unchanged. -/
def speed_adjusted_code (speed_factor : Int) (code : List Int) : List Int :=
  if speed_factor ≠ 100 then code else code

/-- Modelled from the spec (§4.4): the rescaling the specification ascribes
to `speed_factor` — every element whose magnitude exceeds the 2 ms debounce
threshold is rescaled proportionally to `100/speed_factor`.  Used only to
compare the specified behaviour with `speed_adjusted_code` above. -/
def spec_speed_scale (speed_factor : Int) (code : List Int) : List Int :=
  if speed_factor ≠ 100 then
    code.map fun c : Int =>
      if 2 < c.natAbs then round (((c : ℚ) * 100) / (speed_factor : ℚ)) else c
  else code

/-- The loop-carried locals of `Recorder.playback`
(recorder.py lines 186-188): `lts`, `lstation`, `lwire`. -/
structure PbLoop where
  lts : Int
  lstation : Option String
  lwire : Option Int
  deriving DecidableEq, Repr

/-- Result of processing one log line in the playback loop. -/
structure PbStep where
  recorder : Recorder
  loop : PbLoop
  effects : List PbEffect
  dispatched : Option (List Int)
  crash : Bool
  deriving Repr

/-- The body of the `for line in fp` loop of `Recorder.playback`
(recorder.py lines 190-235), for one parsed line.  `dispatched` is the
value of the local `code` at the `if code_callback:` dispatch point
(`none` for an empty packet, which is skipped); `crash` is true when a
code callback was supplied, since `self.code_callback` then raises
`AttributeError`.  `list_data` only prints and is not modelled. -/
def playbackStep (hasCodeCb hasStationCb hasWireCb : Bool)
    (max_silence : ℚ) (speed_factor : Int)
    (r0 : Recorder) (loop : PbLoop) (l : LogLine) : PbStep :=
  let code := l.c
  let ts := l.ts
  let wire := l.w
  let station := l.s
  let w2 :=
    if ¬ some wire = loop.lwire then
      (some wire, if hasWireCb then [PbEffect.wireCb wire] else [])
    else (loop.lwire, ([] : List PbEffect))
  let s2 :=
    if ¬ some station = loop.lstation then
      (some station, if hasStationCb then [PbEffect.stationCb station] else [])
    else (loop.lstation, ([] : List PbEffect))
  let lts := if loop.lts < 0 then ts else loop.lts
  if code = [] then
    { recorder := r0, loop := ⟨lts, s2.1, w2.1⟩, effects := w2.2 ++ s2.2,
      dispatched := none, crash := false }
  else
    let r1 := { r0 with wire := wire, station_id := station }
    let codePause : ℚ := (-(code.headI) : ℚ) / 1000
    let p3 :=
      if 1 < codePause ∧ codePause < 32767 / 1000 then
        let pause0 := round4 (((ts - lts : Int) : ℚ) / 1000)
        let pause :=
          if 0 < max_silence ∧ max_silence < pause0 then max_silence else pause0
        (code.set 0 (-1), [PbEffect.sleep pause])
      else (code, ([] : List PbEffect))
    let code := speed_adjusted_code speed_factor p3.1
    { recorder := r1, loop := ⟨ts, s2.1, w2.1⟩, effects := w2.2 ++ s2.2 ++ p3.2,
      dispatched := some code, crash := hasCodeCb }

/-- The playback loop: process lines in file order, stopping with an
`AttributeError` at the first dispatch attempt when a code callback was
supplied. -/
def playbackGo (hasCodeCb hasStationCb hasWireCb : Bool)
    (max_silence : ℚ) (speed_factor : Int) :
    Recorder → PbLoop → List LogLine →
      Recorder × List PbEffect × Option PbError
  | r0, _, [] => (r0, [], none)
  | r0, loop, l :: rest =>
    let s := playbackStep hasCodeCb hasStationCb hasWireCb max_silence
        speed_factor r0 loop l
    if s.crash then
      (s.recorder, s.effects,
       some (PbError.attributeError (s.dispatched.getD [])))
    else
      let r := playbackGo hasCodeCb hasStationCb hasWireCb max_silence
          speed_factor s.recorder s.loop rest
      (r.1, s.effects ++ r.2.1, r.2.2)

/-- Embedding of `Recorder.playback(list_data, max_silence, speed_factor,
code_callback, station_callback, wire_callback)` (recorder.py lines
181-235): initialize `lts = -1`, `lstation = None`, `lwire = None` and run
the loop over the parsed lines of the source file. -/
def Recorder.playback (rec : Recorder) (lines : List LogLine)
    (max_silence : ℚ) (speed_factor : Int)
    (hasCodeCb hasStationCb hasWireCb : Bool) :
    Recorder × List PbEffect × Option PbError :=
  playbackGo hasCodeCb hasStationCb hasWireCb max_silence speed_factor
    rec ⟨-1, none, none⟩ lines

/-- The last line of a log whose code sequence is non-empty, if any. -/
def lastNonEmpty (lines : List LogLine) : Option LogLine :=
  (lines.filter fun l => l.c ≠ []).getLast?

/-- The sleep durations appearing in a playback effect trace. -/
def sleepsOf (es : List PbEffect) : List ℚ :=
  es.filterMap fun e => match e with
    | PbEffect.sleep q => some q
    | _ => none

/-- Does the effect trace contain a `myReader.decode` call? -/
def callsDecode (es : List Effect) : Bool :=
  es.any fun e => match e with
    | Effect.decode _ => true
    | _ => false

/-- Function `from_key` never changes `internet_active` (the only globals it assigns
are the circuit-closer state and, through `update_sender`, the sender
bookkeeping). -/
theorem from_key_internet_active (cfg : KConfig) (st : KState) (code : List Int) :
    ((from_key cfg st code).1).internet_active = st.internet_active := by
  simp only [from_key, doCircuitCloser, update_sender]
  split_ifs <;> rfl

/-- Function `from_key` always ends by writing the circuit-closer state from the
trailing element: `true` when the sequence ends in the `+1` latch,
`false` otherwise. -/
theorem from_key_circuit_closer (cfg : KConfig) (st : KState) (code : List Int) :
    ((from_key cfg st code).1).circuit_closer =
      (0 < code.length ∧ code.getLast? = some 1 : Bool) := by
  simp only [from_key, doCircuitCloser, update_sender]
  split_ifs <;> simp_all

theorem callsSounder_append (a b : List Effect) :
    callsSounder (a ++ b) = (callsSounder a || callsSounder b) := by
  simp [callsSounder, List.any_append]

theorem callsRecord_append (a b : List Effect) :
    callsRecord (a ++ b) = (callsRecord a || callsRecord b) := by
  simp [callsRecord, List.any_append]

theorem callsSounder_update_sender (st : KState) (id : String) :
    callsSounder (update_sender st id).2 = false := by
  simp only [update_sender]; split_ifs <;> rfl

theorem callsRecord_update_sender (st : KState) (id : String) :
    callsRecord (update_sender st id).2 = false := by
  simp only [update_sender]; split_ifs <;> rfl

/-- C1: in any state with `internet_active = true`, routing a key-origin
packet (`from_key`), and likewise a keyboard-origin packet
(`from_keyboard`), performs no `myKOB.sounder` call and no
`myRecorder.record` call. -/
theorem C1_key_arbitration (cfg : KConfig) (st : KState) (code : List Int)
    (h : st.internet_active = true) :
    callsSounder (from_key cfg st code).2 = false ∧
    callsRecord (from_key cfg st code).2 = false ∧
    callsSounder (from_keyboard cfg st code).2 = false ∧
    callsRecord (from_keyboard cfg st code).2 = false := by
  simp only [from_key, from_keyboard, doCircuitCloser]
  split_ifs <;>
    simp_all [callsSounder_append, callsRecord_append,
      callsSounder_update_sender, callsRecord_update_sender,
      callsSounder, callsRecord]

/-- Witness for C1 at a concrete state. -/
theorem C1_key_arbitration_witness :
    (⟨false, true, true, "", 0, true, ""⟩ : KState).internet_active = true ∧
    callsRecord (from_key ⟨true, true, "AB"⟩
      ⟨false, true, true, "", 0, true, ""⟩ [-200, 50]).2 = false :=
  ⟨rfl, (C1_key_arbitration ⟨true, true, "AB"⟩
    ⟨false, true, true, "", 0, true, ""⟩ [-200, 50] rfl).2.1⟩

theorem callsInternetWrite_append (a b : List Effect) :
    callsInternetWrite (a ++ b) =
      (callsInternetWrite a || callsInternetWrite b) := by
  simp [callsInternetWrite, List.any_append]

theorem callsInternetWrite_update_sender (st : KState) (id : String) :
    callsInternetWrite (update_sender st id).2 = false := by
  simp only [update_sender]; split_ifs <;> rfl

theorem update_sender_hasRecorder (st : KState) (id : String) :
    ((update_sender st id).1).hasRecorder = st.hasRecorder := by
  simp only [update_sender]; split_ifs <;> rfl

theorem callsInternetWrite_nil : callsInternetWrite [] = false := rfl

theorem callsRecord_nil : callsRecord [] = false := rfl

theorem callsInternetWrite_cons (e : Effect) (es : List Effect) :
    callsInternetWrite (e :: es) =
      ((match e with | Effect.internetWrite _ => true | _ => false) ||
        callsInternetWrite es) := rfl

theorem callsRecord_cons (e : Effect) (es : List Effect) :
    callsRecord (e :: es) =
      ((match e with | Effect.record _ _ => true | _ => false) ||
        callsRecord es) := rfl

/-- C5 counterexample: from a state in which a remote station holds the
line (`internet_active = true`), routing a code sequence from the key and
then the latch marker from the key leaves `internet_active = true`
(`from_key` never assigns `internet_active`), contradicting the claim
that the pair of calls leaves `internet_active = false` regardless of the
prior state. -/
theorem C5_counterexample :
    ((from_key ⟨true, true, "AB"⟩
        (from_key ⟨true, true, "AB"⟩
          ⟨false, true, true, "", 0, true, ""⟩ [-200, 50]).1
        latch_code).1).internet_active = true := by rfl

/-- C5 amended: for every valid code sequence `c`, routing `c` from the key
and then the latch marker from the key leaves the circuit state closed and
leaves `internet_active` unchanged from its prior value (in particular it
is `false` afterwards whenever it was `false` before). -/
theorem C5_amended (cfg : KConfig) (st : KState) (c : List Int) :
    ((from_key cfg (from_key cfg st c).1 latch_code).1).circuit_closer = true ∧
    ((from_key cfg (from_key cfg st c).1 latch_code).1).internet_active =
      st.internet_active := by
  refine ⟨?_, ?_⟩
  · rw [from_key_circuit_closer]; rfl
  · rw [from_key_internet_active, from_key_internet_active]

/-- C6 counterexample: disconnecting (`toggle_connect` from
`connected = true`) with the circuit closer open (`circuit_closer = false`)
emits no `myKOB.sounder` call at all — the latch code is not delivered —
contradicting the claim that the latch code is delivered regardless of the
prior circuit state. -/
theorem C6_counterexample :
    ((toggle_connect ⟨false, true, true, "", 0, true, ""⟩).1).connected = false ∧
    callsSounder (toggle_connect ⟨false, true, true, "", 0, true, ""⟩).2 = false ∧
    Effect.sounder latch_code ∉
      (toggle_connect ⟨false, true, true, "", 0, true, ""⟩).2 := by
  refine ⟨rfl, rfl, ?_⟩; decide

/-- C6 amended: on every disconnect (`toggle_connect` from a connected
state), `internet_active` is reset to `false` and `connected` to `false`
regardless of prior state, and the latch code is delivered to the sounder
if and only if the circuit closer is closed (`circuit_closer = true`). -/
theorem C6_amended (st : KState) (h : st.connected = true) :
    ((toggle_connect st).1).internet_active = false ∧
    ((toggle_connect st).1).connected = false ∧
    (Effect.sounder latch_code ∈ (toggle_connect st).2 ↔
      st.circuit_closer = true) := by
  simp only [toggle_connect, h, Bool.not_true]
  split_ifs with h1 h2 <;> simp_all

/-- Witness for C6 at a concrete connected state with the circuit closed. -/
theorem C6_amended_witness :
    (⟨true, true, true, "", 1, true, ""⟩ : KState).connected = true ∧
    (((toggle_connect ⟨true, true, true, "", 1, true, ""⟩).1).internet_active
        = false ∧
      ((toggle_connect ⟨true, true, true, "", 1, true, ""⟩).1).connected
        = false ∧
      (Effect.sounder latch_code ∈
          (toggle_connect ⟨true, true, true, "", 1, true, ""⟩).2 ↔
        (⟨true, true, true, "", 1, true, ""⟩ : KState).circuit_closer
          = true)) :=
  ⟨rfl, C6_amended ⟨true, true, true, "", 1, true, ""⟩ rfl⟩

/-- C7 counterexample: a wire packet arriving while connected with the
local circuit open (`circuit_closer = false`) sets
`internet_active = true`, not `false` as the claim states (the code
assigns `True` in both branches). -/
theorem C7_counterexample :
    ((from_internet ⟨false, false, true, "", 0, true, ""⟩
      [-200, 50]).1).internet_active = true := by rfl

/-- C7 amended: for a wire-origin packet, `from_internet` forwards to
sounder, codec and recorder exactly when connected with the circuit closer
closed; it discards the packet when not connected; and it sets
`internet_active` equal to `connected` (true whenever connected —
including the circuit-open case — and false when not connected). -/
theorem C7_amended (st : KState) (code : List Int) :
    ((from_internet st code).1).internet_active = st.connected ∧
    callsSounder (from_internet st code).2 =
      (st.connected && st.circuit_closer) ∧
    callsDecode (from_internet st code).2 =
      (st.connected && st.circuit_closer) ∧
    callsRecord (from_internet st code).2 =
      (st.connected && st.circuit_closer && st.hasRecorder) ∧
    (st.connected = false → (from_internet st code).2 = []) := by
  simp only [from_internet]
  split_ifs <;>
    simp_all [callsSounder, callsDecode, callsRecord, callsSounder_append,
      callsRecord_append]

/-- C8 counterexample: an empty code sequence routed from the key, in a
state with the circuit open, connected with remote sending enabled, and no
remote station active, is written to the wire and appended via the
recorder — contradicting the claim that malformed (empty) sequences are
never propagated. -/
theorem C8_counterexample :
    callsInternetWrite (from_key ⟨true, true, "AB"⟩
      ⟨false, false, true, "", 0, true, ""⟩ []).2 = true ∧
    callsRecord (from_key ⟨true, true, "AB"⟩
      ⟨false, false, true, "", 0, true, ""⟩ []).2 = true := ⟨rfl, rfl⟩

/-- C8 amended: the router performs no validation of code sequences.  An
empty sequence routed from the key follows the ordinary arbitration rules:
it is written to the wire exactly when the circuit is open, connected, and
remote sending is enabled, and it is recorded exactly when the circuit is
open, no remote station is active, and a recorder is present. -/
theorem C8_amended (cfg : KConfig) (st : KState) :
    callsInternetWrite (from_key cfg st []).2 =
      (!st.circuit_closer && (st.connected && cfg.Remote)) ∧
    callsRecord (from_key cfg st []).2 =
      (!st.circuit_closer && (!st.internet_active && st.hasRecorder)) := by
  simp only [from_key, doCircuitCloser]
  split_ifs <;>
    simp_all [callsInternetWrite_append, callsRecord_append,
      callsInternetWrite_update_sender, callsRecord_update_sender,
      update_sender_hasRecorder, callsInternetWrite_cons, callsRecord_cons,
      callsInternetWrite_nil, callsRecord_nil]

/-- C9 counterexample: in a state whose recognized sender is already `"A"`,
invoking `update_sender` twice in a row with `"A"` fires the station-list
observer zero times, not exactly once. -/
theorem C9_counterexample :
    countNewSender (update_sender
        ⟨true, false, false, "A", 1, true, "A"⟩ "A").2 +
    countNewSender (update_sender
        (update_sender ⟨true, false, false, "A", 1, true, "A"⟩ "A").1
        "A").2 = 0 := by rfl

/-- C9 amended: `update_sender` is idempotent — the second of two
consecutive invocations with the same id is always a no-op (it produces no
effects), and across the two calls the observer fires exactly once when
the id differs from the previously recognized sender and zero times when
it does not. -/
theorem C9_amended (st : KState) (s : String) :
    (update_sender (update_sender st s).1 s).2 = [] ∧
    countNewSender (update_sender st s).2 =
      (if s = st.sender_ID then 0 else 1) := by
  simp only [update_sender]
  split_ifs <;> simp_all [countNewSender]

theorem sleepsOf_append (a b : List PbEffect) :
    sleepsOf (a ++ b) = sleepsOf a ++ sleepsOf b := by
  simp [sleepsOf]

set_option maxHeartbeats 1000000 in
/-- C3: for every replayed event whose leading pause exceeds 1 s and lies
below the 32.767 s discontinuity sentinel, processed with a positive
`max_silence`, the playback loop body sleeps exactly once, for at most
`max_silence` seconds, and the code sequence reaching the dispatch point
has its leading pause element neutralized to `-1`. -/
theorem C3_silence_cap (hCb hS hW : Bool) (ms : ℚ) (sf : Int)
    (r : Recorder) (loop : PbLoop) (l : LogLine)
    (hms : 0 < ms) (h1 : 1000 < -(l.c.headI)) (h2 : -(l.c.headI) < 32767) :
    (∀ q ∈ sleepsOf (playbackStep hCb hS hW ms sf r loop l).effects, q ≤ ms) ∧
    sleepsOf (playbackStep hCb hS hW ms sf r loop l).effects ≠ [] ∧
    ((playbackStep hCb hS hW ms sf r loop l).dispatched.getD []).headI = -1 := by
  have hne : l.c ≠ [] := by
    intro h
    rw [h] at h1
    simp [List.headI] at h1
  obtain ⟨a, t, hc⟩ := List.exists_cons_of_ne_nil hne
  rw [hc] at h1 h2
  simp only [List.headI_cons] at h1 h2
  have hA : (1 : ℚ) < -(a : ℚ) / 1000 := by
    rw [lt_div_iff₀ (by norm_num : (0:ℚ) < 1000), one_mul]
    have h3 : ((1000 : Int) : ℚ) < ((-a : Int) : ℚ) := by exact_mod_cast h1
    push_cast at h3
    linarith
  have hB : -(a : ℚ) / 1000 < 32767 / 1000 := by
    rw [div_lt_div_iff₀ (by norm_num : (0:ℚ) < 1000) (by norm_num : (0:ℚ) < 1000)]
    have h3 : ((-a : Int) : ℚ) < ((32767 : Int) : ℚ) := by exact_mod_cast h2
    push_cast at h3
    linarith
  have hAB : (1 : ℚ) < -(a : ℚ) / 1000 ∧ -(a : ℚ) / 1000 < 32767 / 1000 :=
    ⟨hA, hB⟩
  simp only [playbackStep, hc, List.headI_cons, speed_adjusted_code]
  rw [if_neg (by simp : ¬(a :: t = ([] : List Int))), if_pos hAB]
  split_ifs <;> simp_all [sleepsOf, sleepsOf_append, List.set]

/-- Witness for C3: a recorded gap of 20 wall-clock seconds (timestamps
1000 ms and 21000 ms) with a 2-second leading pause element, replayed with
`max_silence = 5`, sleeps exactly 5 seconds. -/
theorem C3_silence_cap_witness :
    ((0 : ℚ) < 5 ∧
      1000 < -(([-2000, 60, -60, 1] : List Int).headI) ∧
      -(([-2000, 60, -60, 1] : List Int).headI) < 32767) ∧
    ((∀ q ∈ sleepsOf (playbackStep false true true 5 100
          ⟨some "t.json", some "s.json", "XX", 101, false, false⟩
          ⟨1000, some "ST", some 5⟩
          ⟨21000, 5, "ST", CodeSource.local_, [-2000, 60, -60, 1]⟩).effects,
        q ≤ 5) ∧
      sleepsOf (playbackStep false true true 5 100
          ⟨some "t.json", some "s.json", "XX", 101, false, false⟩
          ⟨1000, some "ST", some 5⟩
          ⟨21000, 5, "ST", CodeSource.local_, [-2000, 60, -60, 1]⟩).effects ≠ [] ∧
      ((playbackStep false true true 5 100
          ⟨some "t.json", some "s.json", "XX", 101, false, false⟩
          ⟨1000, some "ST", some 5⟩
          ⟨21000, 5, "ST", CodeSource.local_,
            [-2000, 60, -60, 1]⟩).dispatched.getD []).headI = -1) :=
  ⟨⟨by norm_num, by decide, by decide⟩,
    C3_silence_cap false true true 5 100
      ⟨some "t.json", some "s.json", "XX", 101, false, false⟩
      ⟨1000, some "ST", some 5⟩
      ⟨21000, 5, "ST", CodeSource.local_, [-2000, 60, -60, 1]⟩
      (by norm_num) (by decide) (by decide)⟩

/-- C2 (code bug): replaying the recorded sequence `[-1000, 60, -60]` at
`speed_factor = 200` does not deliver half-magnitude elements.  The loop at
recorder.py lines 230-232 computes `round(sf * c)` but only rebinds the
loop variable, so the sequence reaching the dispatch point is the original
`[-1000, 60, -60]`; the rescaling the spec describes would produce
`[-500, 30, -30]`, which differs.  (The dispatch itself then raises
`AttributeError`, recorder.py line 234.) -/
theorem C2_speed_factor_not_applied :
    (Recorder.playback ⟨some "t.json", some "s.json", "XX", 101, false, false⟩
        [⟨0, 101, "XX", CodeSource.local_, [-1000, 60, -60]⟩]
        0 200 true true true).2.2 =
      some (PbError.attributeError [-1000, 60, -60]) ∧
    spec_speed_scale 200 [-1000, 60, -60] = [-500, 30, -30] ∧
    speed_adjusted_code 200 [-1000, 60, -60] ≠
      spec_speed_scale 200 [-1000, 60, -60] := by
  refine ⟨?_, ?_, ?_⟩
  · norm_num [Recorder.playback, playbackGo, playbackStep,
      speed_adjusted_code, List.headI_cons]
    simp
  · norm_num [spec_speed_scale, round_eq]
  · norm_num [spec_speed_scale, speed_adjusted_code, round_eq]

/-- C4 (code bug): recording the event `(code = [-200, 100],
source = local)` with recorder-held wire 101 and station "X" produces the
expected log line, and playing that single-line log back delivers the
recorded wire and station to the wire and station callbacks — but the code
sequence is never delivered: `self.code_callback(code)` (recorder.py line
234) raises `AttributeError` because the `Recorder` object has no
`code_callback` attribute, and the event's source field is never read by
`playback` at all. -/
theorem C4_record_playback_crash :
    Recorder.record
        ⟨some "MKOB.1.json", some "MKOB.1.json", "X", 101, false, false⟩
        12345 [-200, 100] CodeSource.local_ =
      ⟨12345, 101, "X", CodeSource.local_, [-200, 100]⟩ ∧
    (Recorder.playback
        ⟨some "MKOB.1.json", some "MKOB.1.json", "X", 101, false, false⟩
        [⟨12345, 101, "X", CodeSource.local_, [-200, 100]⟩]
        0 100 true true true).2.1 =
      [PbEffect.wireCb 101, PbEffect.stationCb "X"] ∧
    (Recorder.playback
        ⟨some "MKOB.1.json", some "MKOB.1.json", "X", 101, false, false⟩
        [⟨12345, 101, "X", CodeSource.local_, [-200, 100]⟩]
        0 100 true true true).2.2 =
      some (PbError.attributeError [-200, 100]) := by
  refine ⟨rfl, ?_, ?_⟩ <;>
    (norm_num [Recorder.playback, playbackGo, playbackStep,
      speed_adjusted_code, List.headI_cons]; simp)

theorem playbackStep_crash_no_cb (hS hW : Bool) (ms : ℚ) (sf : Int)
    (r : Recorder) (loop : PbLoop) (l : LogLine) :
    (playbackStep false hS hW ms sf r loop l).crash = false := by
  simp only [playbackStep]
  split_ifs <;> rfl

theorem playbackStep_recorder (hCb hS hW : Bool) (ms : ℚ) (sf : Int)
    (r : Recorder) (loop : PbLoop) (l : LogLine) :
    (playbackStep hCb hS hW ms sf r loop l).recorder =
      if l.c = [] then r else { r with wire := l.w, station_id := l.s } := by
  simp only [playbackStep]
  split_ifs <;> rfl

theorem getLast?_cons_getD (a : LogLine) (xs : List LogLine) :
    (a :: xs).getLast? = some (xs.getLast?.getD a) := by
  cases xs with
  | nil => rfl
  | cons y ys =>
    rw [List.getLast?_cons_cons]
    obtain ⟨z, hz⟩ : ∃ z, (y :: ys).getLast? = some z := by
      cases hyz : (y :: ys).getLast? with
      | none => rw [List.getLast?_eq_none_iff] at hyz; exact absurd hyz (by simp)
      | some z => exact ⟨z, rfl⟩
    simp [hz]

theorem lastNonEmpty_cons (l : LogLine) (rest : List LogLine) :
    lastNonEmpty (l :: rest) =
      if l.c = [] then lastNonEmpty rest
      else some ((lastNonEmpty rest).getD l) := by
  simp only [lastNonEmpty, List.filter_cons]
  by_cases h : l.c = []
  · simp [h]
  · simp [h, getLast?_cons_getD]

theorem playbackGo_frame (hS hW : Bool) (ms : ℚ) (sf : Int) :
    ∀ (lines : List LogLine) (r : Recorder) (loop : PbLoop),
      (playbackGo false hS hW ms sf r loop lines).2.2 = none ∧
      (playbackGo false hS hW ms sf r loop lines).1.wire =
        ((lastNonEmpty lines).map LogLine.w).getD r.wire ∧
      (playbackGo false hS hW ms sf r loop lines).1.station_id =
        ((lastNonEmpty lines).map LogLine.s).getD r.station_id ∧
      (playbackGo false hS hW ms sf r loop lines).1.target_file_path =
        r.target_file_path ∧
      (playbackGo false hS hW ms sf r loop lines).1.source_file_path =
        r.source_file_path ∧
      (playbackGo false hS hW ms sf r loop lines).1.has_station_id_callback =
        r.has_station_id_callback ∧
      (playbackGo false hS hW ms sf r loop lines).1.has_wire_callback =
        r.has_wire_callback
  | [], r, loop => by simp [playbackGo, lastNonEmpty]
  | l :: rest, r, loop => by
    obtain ⟨e1, e2, e3, e4, e5, e6, e7⟩ := playbackGo_frame hS hW ms sf rest
      (playbackStep false hS hW ms sf r loop l).recorder
      (playbackStep false hS hW ms sf r loop l).loop
    simp only [playbackGo, playbackStep_crash_no_cb, Bool.false_eq_true,
      if_false]
    refine ⟨e1, ?_, ?_, ?_, ?_, ?_, ?_⟩
    · rw [e2, playbackStep_recorder, lastNonEmpty_cons]
      by_cases hc : l.c = []
      · simp [hc]
      · cases hrest : lastNonEmpty rest <;> simp [hc, hrest]
    · rw [e3, playbackStep_recorder, lastNonEmpty_cons]
      by_cases hc : l.c = []
      · simp [hc]
      · cases hrest : lastNonEmpty rest <;> simp [hc, hrest]
    · rw [e4, playbackStep_recorder]
      by_cases hc : l.c = [] <;> simp [hc]
    · rw [e5, playbackStep_recorder]
      by_cases hc : l.c = [] <;> simp [hc]
    · rw [e6, playbackStep_recorder]
      by_cases hc : l.c = [] <;> simp [hc]
    · rw [e7, playbackStep_recorder]
      by_cases hc : l.c = [] <;> simp [hc]

/-- C10: playback (run to completion, i.e. without the crashing code
callback) overwrites the recorder's `__wire` and `__station_id` fields with
each non-empty event's values, so after it returns they equal those of the
last non-empty event read (or are unchanged if no non-empty event exists),
while `target_file_path`, `source_file_path` and the stored callbacks are
unchanged. -/
theorem C10_playback_frame (r : Recorder) (lines : List LogLine)
    (ms : ℚ) (sf : Int) (hS hW : Bool) :
    (Recorder.playback r lines ms sf false hS hW).2.2 = none ∧
    (Recorder.playback r lines ms sf false hS hW).1.wire =
      ((lastNonEmpty lines).map LogLine.w).getD r.wire ∧
    (Recorder.playback r lines ms sf false hS hW).1.station_id =
      ((lastNonEmpty lines).map LogLine.s).getD r.station_id ∧
    (Recorder.playback r lines ms sf false hS hW).1.target_file_path =
      r.target_file_path ∧
    (Recorder.playback r lines ms sf false hS hW).1.source_file_path =
      r.source_file_path ∧
    (Recorder.playback r lines ms sf false hS hW).1.has_station_id_callback =
      r.has_station_id_callback ∧
    (Recorder.playback r lines ms sf false hS hW).1.has_wire_callback =
      r.has_wire_callback :=
  playbackGo_frame hS hW ms sf lines r ⟨-1, none, none⟩
